import Mathlib

/-!
Verification of the cargo-ndk command-line pipeline (src/cli.rs).

The development shallowly embeds the three-stage pipeline of src/cli.rs:
kit (NDK) discovery (derive_ndk_path), the per-target build loop, and
artifact collection.  Ambient effects are made explicit:

* the process environment and the host filesystem are records of functions
  (Env, Fs) passed to the embedded code;
* external collaborators (cargo metadata, gumdrop argument parsing, the
  config loader, cargo invocation, create_dir_all / copy, the strip tool)
  are oracles recorded in a World value;
* observable actions of a run are collected in a trace of events (Ev), and
  process termination is an Outcome: std::process::exit(code) becomes
  Outcome.exited code, a normal return from run becomes Outcome.returned
  (the process then exits 0), and a panic via .unwrap()/.expect() becomes
  Outcome.panicked.
-/

namespace CargoNdk

/-- Byte-wise (here: scalar-value-wise) lexicographic comparison of two
sequences of character codes, the order slices of paths are sorted by. -/
def lexLe : List Nat → List Nat → Bool
  | [], _ => true
  | _ :: _, [] => false
  | a :: as, b :: bs => if a < b then true else if b < a then false else lexLe as bs

/-- Lexicographic comparison of path strings, modelling the Ord instance
used by Vec::sort on PathBuf values (all compared paths here are plain
sibling entries of one directory, where component order and string order
agree). -/
def strLe (a b : String) : Bool := lexLe (a.data.map Char.toNat) (b.data.map Char.toNat)

/-- strLe as a relation, for use with List.insertionSort. -/
def strRel (a b : String) : Prop := strLe a b = true

instance : DecidableRel strRel := fun _ _ => decEq _ _

/-- The three environment variables consulted by derive_ndk_path via
env::var_os; none models an unset variable. -/
structure Env where
  android_ndk_home : Option String
  ndk_home : Option String
  android_sdk_home : Option String

/-- Read-only view of the host filesystem used by the pipeline.
pathExists models Path::exists; readDir models std::fs::read_dir, returning
the full paths of the directory's immediate entries (DirEntry::path), with
none for a read_dir error. -/
structure Fs where
  pathExists : String → Bool
  readDir : String → Option (List String)

/-- PathBuf::join with a relative component. -/
def pjoin (dir name : String) : String := dir ++ "/" ++ name

/-- The default NDK install directory probed by strategy 4 of
derive_ndk_path: base_dir/Android/sdk/ndk, where base_dir is the
platform-appropriate user directory (pathos local_dir / data_dir). -/
def ndkDirOf (base_dir : String) : String :=
  pjoin (pjoin (pjoin base_dir "Android") "sdk") "ndk"

/-- paths.sort() on the entry list: the lexicographically sorted
permutation. -/
def sortedPaths (paths : List String) : List String := paths.insertionSort strRel

/-- Strategy 4 of derive_ndk_path (src/cli.rs lines 43-59): if the default
install directory exists, list it, sort, reverse, and take the first entry;
a read_dir failure propagates None via the ? operator. -/
def derive_ndk_default (fs : Fs) (base_dir : String) : Option String :=
  let ndk_dir := ndkDirOf base_dir
  if fs.pathExists ndk_dir then
    match fs.readDir ndk_dir with
    | none => none
    | some paths => ((sortedPaths paths).reverse).head?
  else
    none

/-- derive_ndk_path (src/cli.rs lines 26-62): the four-strategy NDK
search.  ANDROID_NDK_HOME and NDK_HOME are returned verbatim when set;
$ANDROID_SDK_HOME/ndk-bundle only when it exists; otherwise the default
install directory is probed. -/
def derive_ndk_path (env : Env) (fs : Fs) (base_dir : String) : Option String :=
  match env.android_ndk_home with
  | some path => some path
  | none =>
    match env.ndk_home with
    | some path => some path
    | none =>
      match env.android_sdk_home with
      | some sdk_path =>
        let path := pjoin sdk_path "ndk-bundle"
        if fs.pathExists path then some path else derive_ndk_default fs base_dir
      | none => derive_ndk_default fs base_dir

/-- Modelled from the spec: crate::meta::Target is not under src/.  Spec
section 3 describes it as an enumerated device architecture, immutable,
with a canonical display name and a derived compiler-triple string. -/
inductive Target where
  | armeabi_v7a
  | arm64_v8a
  | x86
  | x86_64
deriving DecidableEq, Repr

/-- Modelled from the spec: the target's canonical display form
(Display::to_string), used to name output subdirectories. -/
def Target.display : Target → String
  | .armeabi_v7a => "armeabi-v7a"
  | .arm64_v8a => "arm64-v8a"
  | .x86 => "x86"
  | .x86_64 => "x86_64"

/-- Modelled from the spec: the compiler triple derived from the target,
used to name toolchain binaries and cargo output subdirectories. -/
def Target.triple : Target → String
  | .armeabi_v7a => "armv7-linux-androideabi"
  | .arm64_v8a => "aarch64-linux-android"
  | .x86 => "i686-linux-android"
  | .x86_64 => "x86_64-linux-android"

/-- The Args struct of src/cli.rs lines 8-24, as produced by gumdrop. -/
structure Args where
  help : Bool
  cargo_args : List String
  target : List Target
  platform : Option Nat
  output_dir : Option String

/-- The project configuration returned by crate::meta::config: a default
target list and a resolved default platform (API) level. -/
structure Config where
  targets : List Target
  platform : Nat

/-- Observable actions of a run, in order of occurrence. -/
inductive Ev where
  /-- print_usage() was called. -/
  | usage
  /-- the log::error "Could not find any NDK." diagnostic (lines 106-109). -/
  | kitNotFound
  /-- the NDK API level log line (line 137), recording the resolved level. -/
  | apiLevel (level : Nat)
  /-- crate::cargo::run was invoked for this target (line 151). -/
  | buildInvoked (t : Target)
  /-- the "rustup target install <triple>" remediation hint (lines 155-157). -/
  | hint (triple : String)
  /-- std::fs::create_dir_all on this path (line 134 or 169). -/
  | mkdir (path : String)
  /-- std::fs::copy src to dest (line 189). -/
  | copy (src : String) (dest : String)
  /-- crate::cargo::strip invoked on dest (line 191); its result is discarded. -/
  | strip (triple : String) (dest : String)
deriving DecidableEq, Repr

/-- How the process run ends. -/
inductive Outcome where
  /-- std::process::exit(code). -/
  | exited (code : Int)
  /-- run returned normally; the process then terminates with exit code 0. -/
  | returned
  /-- a .unwrap()/.expect() panic aborted the process. -/
  | panicked
deriving DecidableEq, Repr

/-- All ambient inputs of one invocation of run: environment, filesystem,
and the responses of the external collaborators.  cargo::run receives the
project root, NDK path, platform level and pass-through arguments, all of
which are fixed for the whole run, so its exit status is modelled as a
function of the target alone; build t is the status .code() (none when the
child was terminated without an exit code). -/
structure World where
  env : Env
  fs : Fs
  base_dir : String
  metadata : Except Unit String
  parse : Except Unit Args
  config : Bool → Except String Config
  build : Target → Option Int
  mkdirOk : String → Bool
  copyOk : String → String → Bool
  stripOk : String → Bool

/-- The build loop of src/cli.rs lines 147-160: invoke cargo for each
target in order; on the first status whose code (defaulted to -1 when
absent) is non-zero, print the remediation hint and exit with that code.
Returns (some code) for the early exit, none when all targets built. -/
def buildLoop (build : Target → Option Int) : List Target → Option Int × List Ev
  | [] => (none, [])
  | t :: ts =>
    let code := (build t).getD (-1)
    if code = 0 then
      let r := buildLoop build ts
      (r.1, Ev.buildInvoked t :: r.2)
    else
      (some code, [Ev.buildInvoked t, Ev.hint t.triple])

/-- Splitting of a character list at every occurrence of a separator,
mirroring String::split for the single-character separators used here. -/
def splitOnChar (sep : Char) : List Char → List (List Char)
  | [] => [[]]
  | c :: cs =>
    if c = sep then [] :: splitOnChar sep cs
    else
      match splitOnChar sep cs with
      | [] => [[c]]
      | h :: t => (c :: h) :: t

/-- The Path::file_name of an entry path: the component after the last
separator. -/
def fileName (p : String) : String :=
  String.mk ((splitOnChar (Char.ofNat 47) p.data).getLastD [])

/-- The Path::extension of an entry path: the part of the file name after
its last dot; none when the name has no dot, or its only dot is the
leading one. -/
def extension (p : String) : Option String :=
  match splitOnChar (Char.ofNat 46) (fileName p).data with
  | [] => none
  | [_] => none
  | [[], _] => none
  | parts => some (String.mk (parts.getLastD []))

/-- The artifact filter of line 183: keep exactly the entries whose
extension is "so". -/
def soFiles (entries : List String) : List String :=
  entries.filter (fun x => extension x == some "so")

/-- The copy and strip events emitted for a list of artifact files when
every copy succeeds. -/
def copiedEvs (triple arch_output_dir : String) : List String → List Ev
  | [] => []
  | f :: rest =>
    Ev.copy f (pjoin arch_output_dir (fileName f)) ::
      Ev.strip triple (pjoin arch_output_dir (fileName f)) ::
        copiedEvs triple arch_output_dir rest

/-- The per-artifact loop of src/cli.rs lines 186-192: copy each matching
file into the per-target destination (a copy failure panics via .unwrap()),
then run the strip tool on the copy, discarding its result. -/
def copyFiles (copyOk : String → String → Bool) (stripOk : String → Bool)
    (triple arch_output_dir : String) : List String → Option Outcome × List Ev
  | [] => (none, [])
  | so_file :: rest =>
    let dest := pjoin arch_output_dir (fileName so_file)
    if copyOk so_file dest then
      let _ignored := stripOk dest
      let r := copyFiles copyOk stripOk triple arch_output_dir rest
      (r.1, Ev.copy so_file dest :: Ev.strip triple dest :: r.2)
    else
      (some Outcome.panicked, [Ev.copy so_file dest])

/-- One iteration of the collection loop (src/cli.rs lines 167-193):
create the per-target destination directory (create_dir_all, .unwrap()),
read the per-target per-profile cargo output directory
(read_dir().ok().unwrap()), filter to .so entries, and copy each. -/
def collectTarget (fs : Fs) (mkdirOk : String → Bool) (copyOk : String → String → Bool)
    (stripOk : String → Bool) (is_release : Bool) (out_dir output_dir : String)
    (target : Target) : Option Outcome × List Ev :=
  let arch_output_dir := pjoin output_dir target.display
  if mkdirOk arch_output_dir then
    let dir := pjoin (pjoin out_dir target.triple) (if is_release then "release" else "debug")
    match fs.readDir dir with
    | none => (some Outcome.panicked, [Ev.mkdir arch_output_dir])
    | some entries =>
      let r := copyFiles copyOk stripOk target.triple arch_output_dir (soFiles entries)
      (r.1, Ev.mkdir arch_output_dir :: r.2)
  else
    (some Outcome.panicked, [Ev.mkdir arch_output_dir])

/-- The collection loop over all targets; an early Outcome (a panic) stops
the loop. -/
def collectLoop (fs : Fs) (mkdirOk : String → Bool) (copyOk : String → String → Bool)
    (stripOk : String → Bool) (is_release : Bool) (out_dir output_dir : String) :
    List Target → Option Outcome × List Ev
  | [] => (none, [])
  | t :: ts =>
    let r := collectTarget fs mkdirOk copyOk stripOk is_release out_dir output_dir t
    match r.1 with
    | some o => (some o, r.2)
    | none =>
      let r2 := collectLoop fs mkdirOk copyOk stripOk is_release out_dir output_dir ts
      (r2.1, r.2 ++ r2.2)

/-- Target resolution, src/cli.rs lines 124-128: an explicit CLI target
list wins outright, otherwise the config's defaults are used. -/
def resolve_targets (cli_targets config_targets : List Target) : List Target :=
  if !cli_targets.isEmpty then cli_targets else config_targets

/-- Platform resolution, src/cli.rs lines 130-131: the explicit CLI level
if present, else the config's resolved default. -/
def resolve_platform (cli_platform : Option Nat) (config_platform : Nat) : Nat :=
  cli_platform.getD config_platform

/-- The tail of run after target/platform resolution and the optional
pre-creation of the requested output directory: the build loop (lines
147-160), then, when an output directory was requested, the collection
loop (lines 164-194). -/
def runRest (fs : Fs) (build : Target → Option Int) (mkdirOk : String → Bool)
    (copyOk : String → String → Bool) (stripOk : String → Bool) (is_release : Bool)
    (target_directory : String) (output_dir : Option String)
    (targets : List Target) (platform : Nat) : Outcome × List Ev :=
  let bl := buildLoop build targets
  match bl.1 with
  | some code => (Outcome.exited code, Ev.apiLevel platform :: bl.2)
  | none =>
    match output_dir with
    | none => (Outcome.returned, Ev.apiLevel platform :: bl.2)
    | some od =>
      let cl := collectLoop fs mkdirOk copyOk stripOk is_release target_directory od targets
      match cl.1 with
      | some o => (o, Ev.apiLevel platform :: bl.2 ++ cl.2)
      | none => (Outcome.returned, Ev.apiLevel platform :: bl.2 ++ cl.2)

/-- run (src/cli.rs lines 69-195): the whole pipeline.  The help check on
the raw argument vector comes first; then gumdrop parsing (exit 2 on
error, usage and exit 0 when --help parsed), cargo metadata (.unwrap()),
NDK discovery (normal return with a diagnostic on absence), config loading
(exit 1 on error), target/platform resolution, the optional pre-creation
of the output directory (.expect()), the build loop and collection. -/
def run (w : World) (args : List String) : Outcome × List Ev :=
  if args.isEmpty || args.contains "-h" || args.contains "--help" then
    (Outcome.exited 0, [Ev.usage])
  else
    let is_release := args.contains "--release"
    match w.parse with
    | Except.error _ => (Outcome.exited 2, [])
    | Except.ok a =>
      if a.help then
        (Outcome.exited 0, [Ev.usage])
      else
        match w.metadata with
        | Except.error _ => (Outcome.panicked, [])
        | Except.ok target_directory =>
          match derive_ndk_path w.env w.fs w.base_dir with
          | none => (Outcome.returned, [Ev.kitNotFound])
          | some _ndk_home =>
            match w.config is_release with
            | Except.error _ => (Outcome.exited 1, [])
            | Except.ok config =>
              let targets := resolve_targets a.target config.targets
              let platform := resolve_platform a.platform config.platform
              match a.output_dir with
              | some od =>
                if w.mkdirOk od then
                  let r := runRest w.fs w.build w.mkdirOk w.copyOk w.stripOk is_release
                    target_directory a.output_dir targets platform
                  (r.1, Ev.mkdir od :: r.2)
                else
                  (Outcome.panicked, [Ev.mkdir od])
              | none =>
                runRest w.fs w.build w.mkdirOk w.copyOk w.stripOk is_release
                  target_directory a.output_dir targets platform

/-- The mkdir event emitted before the build loop when an output directory
was requested (src/cli.rs lines 133-135), for use in run-level statements. -/
def preEvs : Option String → List Ev
  | none => []
  | some od => [Ev.mkdir od]

/-- An environment with all three NDK-related variables unset. -/
def emptyEnv : Env :=
  { android_ndk_home := none, ndk_home := none, android_sdk_home := none }

/-- A filesystem on which no path exists and every read_dir fails. -/
def emptyFs : Fs := { pathExists := fun _ => false, readDir := fun _ => none }

/-- An environment with the primary variable set; the legacy and SDK
variables are also set, to exhibit the priority order. -/
def envPrimary : Env :=
  { android_ndk_home := some "/opt/android-ndk", ndk_home := some "/legacy/ndk",
    android_sdk_home := some "/sdk" }

/-- The default install directory for a concrete Unix-like user data dir. -/
def defaultNdkDir : String := ndkDirOf "/home/user/.local/share"

/-- A filesystem on which only the default install directory exists, with
the three version children of the end-to-end scenario of the spec. -/
def fsDefault : Fs :=
  { pathExists := fun p => p == defaultNdkDir,
    readDir := fun p =>
      if p == defaultNdkDir then
        some [pjoin defaultNdkDir "21.0.0", pjoin defaultNdkDir "23.1.1",
              pjoin defaultNdkDir "22.0.0"]
      else none }

/-- A parse result selecting two explicit targets and no output directory. -/
def argsTwoTargets : Args :=
  { help := false, cargo_args := ["build"],
    target := [Target.armeabi_v7a, Target.arm64_v8a],
    platform := none, output_dir := none }

/-- A project config whose defaults differ from the explicit CLI targets. -/
def cfgX86 : Config := { targets := [Target.x86], platform := 21 }

/-- A world in which no NDK can be found: all variables unset, nothing on
the filesystem, every other collaborator healthy. -/
def noNdkWorld : World :=
  { env := emptyEnv, fs := emptyFs, base_dir := "/home/user/.local/share",
    metadata := Except.ok "/project/target",
    parse := Except.ok { help := false, cargo_args := ["build"], target := [],
                         platform := none, output_dir := none },
    config := fun _ => Except.ok cfgX86,
    build := fun _ => some 0, mkdirOk := fun _ => true,
    copyOk := fun _ _ => true, stripOk := fun _ => true }

/-- A world in which the build of the second target fails with exit code
101 while the first succeeds. -/
def failWorld : World :=
  { env := envPrimary, fs := emptyFs, base_dir := "/home/user/.local/share",
    metadata := Except.ok "/project/target",
    parse := Except.ok argsTwoTargets,
    config := fun _ => Except.ok cfgX86,
    build := fun t => if t = Target.arm64_v8a then some 101 else some 0,
    mkdirOk := fun _ => true, copyOk := fun _ _ => true, stripOk := fun _ => true }

/-- A world in which the build of the second target dies without an exit
code (as after a signal) while the first succeeds. -/
def signalWorld : World :=
  { env := envPrimary, fs := emptyFs, base_dir := "/home/user/.local/share",
    metadata := Except.ok "/project/target",
    parse := Except.ok argsTwoTargets,
    config := fun _ => Except.ok cfgX86,
    build := fun t => if t = Target.arm64_v8a then none else some 0,
    mkdirOk := fun _ => true, copyOk := fun _ _ => true, stripOk := fun _ => true }

/-- A world in which every collaborator fails, to exhibit that the help
check precedes them all. -/
def plainWorld : World :=
  { env := emptyEnv, fs := emptyFs, base_dir := "/base",
    metadata := Except.error (), parse := Except.error (),
    config := fun _ => Except.error "malformed manifest",
    build := fun _ => none, mkdirOk := fun _ => false,
    copyOk := fun _ _ => false, stripOk := fun _ => false }

/-- A build output directory holding no shared library at all. -/
def fsNoArtifacts : Fs :=
  { pathExists := fun _ => true,
    readDir := fun _ =>
      some ["/project/target/aarch64-linux-android/debug/deps",
            "/project/target/aarch64-linux-android/debug/libfoo.d"] }

/-- A build output directory holding one shared library and two other
entries. -/
def fsOneArtifact : Fs :=
  { pathExists := fun _ => true,
    readDir := fun _ =>
      some ["/project/target/i686-linux-android/debug/libx.so",
            "/project/target/i686-linux-android/debug/libx.d",
            "/project/target/i686-linux-android/debug/deps"] }

theorem lexLe_refl (a : List Nat) : lexLe a a = true := by
  induction a with
  | nil => rfl
  | cons x xs ih => simp [lexLe, ih]

theorem lexLe_total (a b : List Nat) : lexLe a b = true ∨ lexLe b a = true := by
  induction a generalizing b with
  | nil => left; rfl
  | cons x xs ih =>
    cases b with
    | nil => right; rfl
    | cons y ys =>
      rcases Nat.lt_trichotomy x y with h | h | h
      · left; simp [lexLe, h]
      · subst h
        rcases ih ys with h2 | h2
        · left; simp [lexLe, h2]
        · right; simp [lexLe, h2]
      · right; simp [lexLe, h]

theorem lexLe_trans {a b c : List Nat} (h1 : lexLe a b = true) (h2 : lexLe b c = true) :
    lexLe a c = true := by
  induction a generalizing b c with
  | nil => rfl
  | cons x xs ih =>
    cases b with
    | nil => simp [lexLe] at h1
    | cons y ys =>
      cases c with
      | nil => simp [lexLe] at h2
      | cons z zs =>
        simp only [lexLe] at h1 h2 ⊢
        rcases Nat.lt_trichotomy x y with hxy | hxy | hxy
        · rcases Nat.lt_trichotomy y z with hyz | hyz | hyz
          · simp [Nat.lt_trans hxy hyz]
          · subst hyz; simp [hxy]
          · simp [hyz, Nat.not_lt.mpr (Nat.le_of_lt hyz)] at h2
        · subst hxy
          rcases Nat.lt_trichotomy x z with hyz | hyz | hyz
          · simp [hyz]
          · subst hyz
            simp [Nat.lt_irrefl] at h1 h2 ⊢
            exact ih h1 h2
          · simp [hyz, Nat.not_lt.mpr (Nat.le_of_lt hyz)] at h2
        · simp [hxy, Nat.not_lt.mpr (Nat.le_of_lt hxy)] at h1

theorem strRel_refl (a : String) : strRel a a := lexLe_refl _

instance : IsTotal String strRel := ⟨fun _ _ => lexLe_total _ _⟩

instance : IsTrans String strRel := ⟨fun _ _ _ h1 h2 => lexLe_trans h1 h2⟩

theorem getLast?_some_mem {l : List String} {m : String} (h : l.getLast? = some m) :
    m ∈ l := by
  obtain ⟨hne, heq⟩ := List.mem_getLast?_eq_getLast (show m ∈ l.getLast? from h)
  exact heq ▸ List.getLast_mem hne

theorem sorted_getLast?_greatest :
    ∀ (l : List String), List.Sorted strRel l →
      ∀ m, l.getLast? = some m → ∀ x ∈ l, strRel x m
  | [] => by intro _ m hm; simp at hm
  | [a] => by
      intro _ m hm x hx
      have h1 : ([a] : List String).getLast? = some a := rfl
      rw [h1] at hm
      injection hm with hm
      have hx1 : x = a := by simpa using hx
      subst hm; subst hx1
      exact strRel_refl x
  | a :: b :: l => by
      intro hs m hm x hx
      rw [List.getLast?_cons_cons] at hm
      rcases List.mem_cons.mp hx with h | h
      · subst h
        exact List.rel_of_sorted_cons hs _ (getLast?_some_mem hm)
      · exact sorted_getLast?_greatest (b :: l) hs.of_cons m hm x h

theorem mem_sortedPaths {l : List String} {x : String} : x ∈ sortedPaths l ↔ x ∈ l :=
  List.mem_insertionSort strRel

theorem sortedPaths_sorted (l : List String) : List.Sorted strRel (sortedPaths l) :=
  List.sorted_insertionSort strRel l

theorem sortedPaths_reverse_head?_greatest {l : List String} {m : String}
    (h : ((sortedPaths l).reverse).head? = some m) :
    m ∈ l ∧ ∀ x ∈ l, strLe x m = true := by
  rw [List.head?_reverse] at h
  refine ⟨mem_sortedPaths.mp (getLast?_some_mem h), fun x hx => ?_⟩
  exact sorted_getLast?_greatest _ (sortedPaths_sorted l) m h x (mem_sortedPaths.mpr hx)

theorem sortedPaths_reverse_head?_isSome {l : List String} (h : l ≠ []) :
    ∃ m, ((sortedPaths l).reverse).head? = some m := by
  rw [List.head?_reverse]
  have hne : sortedPaths l ≠ [] := by
    intro h0
    have hp := List.perm_insertionSort strRel l
    rw [show List.insertionSort strRel l = sortedPaths l from rfl, h0] at hp
    exact h hp.symm.eq_nil
  exact ⟨_, List.getLast?_eq_getLast_of_ne_nil hne⟩

theorem derive_of_primary (env : Env) (fs : Fs) (base_dir : String) (p : String)
    (h : env.android_ndk_home = some p) :
    derive_ndk_path env fs base_dir = some p := by
  simp [derive_ndk_path, h]

theorem derive_of_legacy (env : Env) (fs : Fs) (base_dir : String) (p : String)
    (h1 : env.android_ndk_home = none) (h2 : env.ndk_home = some p) :
    derive_ndk_path env fs base_dir = some p := by
  simp [derive_ndk_path, h1, h2]

theorem derive_of_sdk (env : Env) (fs : Fs) (base_dir : String) (s : String)
    (h1 : env.android_ndk_home = none) (h2 : env.ndk_home = none)
    (h3 : env.android_sdk_home = some s)
    (h4 : fs.pathExists (pjoin s "ndk-bundle") = true) :
    derive_ndk_path env fs base_dir = some (pjoin s "ndk-bundle") := by
  simp [derive_ndk_path, h1, h2, h3, h4]

theorem derive_eq_default (env : Env) (fs : Fs) (base_dir : String)
    (h1 : env.android_ndk_home = none) (h2 : env.ndk_home = none)
    (h3 : ∀ s, env.android_sdk_home = some s →
      fs.pathExists (pjoin s "ndk-bundle") = false) :
    derive_ndk_path env fs base_dir = derive_ndk_default fs base_dir := by
  rcases hs : env.android_sdk_home with _ | s
  · simp [derive_ndk_path, h1, h2, hs]
  · simp [derive_ndk_path, h1, h2, hs, h3 s hs]

theorem derive_none_iff (env : Env) (fs : Fs) (base_dir : String) :
    derive_ndk_path env fs base_dir = none ↔
      env.android_ndk_home = none ∧ env.ndk_home = none ∧
      (∀ s, env.android_sdk_home = some s →
        fs.pathExists (pjoin s "ndk-bundle") = false) ∧
      derive_ndk_default fs base_dir = none := by
  constructor
  · intro h
    rcases ha : env.android_ndk_home with _ | p
    · rcases hn : env.ndk_home with _ | p
      · rcases hs : env.android_sdk_home with _ | s
        · refine ⟨rfl, rfl, fun s hs2 => ?_, ?_⟩
          · exact Option.noConfusion hs2
          · rw [← derive_eq_default env fs base_dir ha hn
              (fun s hs2 => by rw [hs] at hs2; exact Option.noConfusion hs2)]
            exact h
        · rcases hex : fs.pathExists (pjoin s "ndk-bundle") with _ | _
          · refine ⟨rfl, rfl, fun s2 hs2 => ?_, ?_⟩
            · injection hs2 with hs2; subst hs2; exact hex
            · rw [← derive_eq_default env fs base_dir ha hn
                (fun s2 hs2 => by rw [hs] at hs2; injection hs2 with hs2
                                  subst hs2; exact hex)]
              exact h
          · rw [derive_of_sdk env fs base_dir s ha hn hs hex] at h
            exact Option.noConfusion h
      · rw [derive_of_legacy env fs base_dir p ha hn] at h
        exact Option.noConfusion h
    · rw [derive_of_primary env fs base_dir p ha] at h
      exact Option.noConfusion h
  · rintro ⟨h1, h2, h3, h4⟩
    rw [derive_eq_default env fs base_dir h1 h2 h3]
    exact h4

theorem buildLoop_all_ok (build : Target → Option Int) :
    ∀ ts : List Target, (∀ u ∈ ts, (build u).getD (-1) = 0) →
      buildLoop build ts = (none, ts.map Ev.buildInvoked)
  | [] => fun _ => rfl
  | u :: ts => fun h => by
      have hu : (build u).getD (-1) = 0 := h u (List.mem_cons_self u ts)
      have ih := buildLoop_all_ok build ts (fun v hv => h v (List.mem_cons_of_mem u hv))
      simp [buildLoop, hu, ih]

theorem buildLoop_first_fail (build : Target → Option Int) (ts₂ : List Target)
    (t : Target) (c : Int) (hc : (build t).getD (-1) = c) (hne : c ≠ 0) :
    ∀ ts₁ : List Target, (∀ u ∈ ts₁, (build u).getD (-1) = 0) →
      buildLoop build (ts₁ ++ t :: ts₂)
        = (some c, ts₁.map Ev.buildInvoked ++ [Ev.buildInvoked t, Ev.hint t.triple])
  | [] => fun _ => by simp [buildLoop, hc, hne]
  | u :: ts₁ => fun h => by
      have hu : (build u).getD (-1) = 0 := h u (List.mem_cons_self u ts₁)
      have ih := buildLoop_first_fail build ts₂ t c hc hne ts₁
        (fun v hv => h v (List.mem_cons_of_mem u hv))
      simp [buildLoop, hu, ih]

theorem copyFiles_all_ok (copyOk : String → String → Bool) (stripOk : String → Bool)
    (triple arch_output_dir : String) :
    ∀ files : List String,
      (∀ f ∈ files, copyOk f (pjoin arch_output_dir (fileName f)) = true) →
      copyFiles copyOk stripOk triple arch_output_dir files
        = (none, copiedEvs triple arch_output_dir files)
  | [] => fun _ => rfl
  | f :: rest => fun h => by
      have hf := h f (List.mem_cons_self f rest)
      have ih := copyFiles_all_ok copyOk stripOk triple arch_output_dir rest
        (fun g hg => h g (List.mem_cons_of_mem f hg))
      simp [copyFiles, hf, ih, copiedEvs]

theorem copyFiles_fail (copyOk : String → String → Bool) (stripOk : String → Bool)
    (triple arch_output_dir f : String) (rest : List String)
    (hf : copyOk f (pjoin arch_output_dir (fileName f)) = false) :
    ∀ done : List String,
      (∀ g ∈ done, copyOk g (pjoin arch_output_dir (fileName g)) = true) →
      copyFiles copyOk stripOk triple arch_output_dir (done ++ f :: rest)
        = (some Outcome.panicked,
           copiedEvs triple arch_output_dir done
             ++ [Ev.copy f (pjoin arch_output_dir (fileName f))])
  | [] => fun _ => by simp [copyFiles, hf, copiedEvs]
  | g :: done => fun h => by
      have hg := h g (List.mem_cons_self g done)
      have ih := copyFiles_fail copyOk stripOk triple arch_output_dir f rest hf done
        (fun x hx => h x (List.mem_cons_of_mem g hx))
      simp [copyFiles, hg, ih, copiedEvs]

theorem copyFiles_stripOk_eq (copyOk : String → String → Bool) (s1 s2 : String → Bool)
    (triple arch_output_dir : String) :
    ∀ files : List String,
      copyFiles copyOk s1 triple arch_output_dir files
        = copyFiles copyOk s2 triple arch_output_dir files
  | [] => rfl
  | f :: rest => by
      have ih := copyFiles_stripOk_eq copyOk s1 s2 triple arch_output_dir rest
      cases hc : copyOk f (pjoin arch_output_dir (fileName f)) <;>
        simp [copyFiles, hc, ih]

theorem collectTarget_stripOk_eq (fs : Fs) (mkdirOk : String → Bool)
    (copyOk : String → String → Bool) (s1 s2 : String → Bool) (is_release : Bool)
    (out_dir output_dir : String) (t : Target) :
    collectTarget fs mkdirOk copyOk s1 is_release out_dir output_dir t
      = collectTarget fs mkdirOk copyOk s2 is_release out_dir output_dir t := by
  cases hmk : mkdirOk (pjoin output_dir t.display) with
  | false => simp [collectTarget, hmk]
  | true =>
    cases hrd : fs.readDir
        (pjoin (pjoin out_dir t.triple) (if is_release then "release" else "debug")) with
    | none => simp [collectTarget, hmk, hrd]
    | some entries =>
      simp [collectTarget, hmk, hrd,
        copyFiles_stripOk_eq copyOk s1 s2 t.triple (pjoin output_dir t.display) (soFiles entries)]

theorem collectLoop_stripOk_eq (fs : Fs) (mkdirOk : String → Bool)
    (copyOk : String → String → Bool) (s1 s2 : String → Bool) (is_release : Bool)
    (out_dir output_dir : String) :
    ∀ ts : List Target,
      collectLoop fs mkdirOk copyOk s1 is_release out_dir output_dir ts
        = collectLoop fs mkdirOk copyOk s2 is_release out_dir output_dir ts
  | [] => rfl
  | t :: ts => by
      have h1 := collectTarget_stripOk_eq fs mkdirOk copyOk s1 s2 is_release out_dir output_dir t
      have ih := collectLoop_stripOk_eq fs mkdirOk copyOk s1 s2 is_release out_dir output_dir ts
      simp [collectLoop, h1, ih]

theorem run_resolved (w : World) (args : List String) (a : Args) (td nh : String)
    (cfg : Config)
    (hargs : (args.isEmpty || args.contains "-h" || args.contains "--help") = false)
    (hparse : w.parse = Except.ok a) (hhelp : a.help = false)
    (hmeta : w.metadata = Except.ok td)
    (hndk : derive_ndk_path w.env w.fs w.base_dir = some nh)
    (hcfg : w.config (args.contains "--release") = Except.ok cfg)
    (hpre : ∀ od, a.output_dir = some od → w.mkdirOk od = true) :
    run w args =
      ((runRest w.fs w.build w.mkdirOk w.copyOk w.stripOk (args.contains "--release") td
          a.output_dir (resolve_targets a.target cfg.targets)
          (resolve_platform a.platform cfg.platform)).1,
       preEvs a.output_dir ++
         (runRest w.fs w.build w.mkdirOk w.copyOk w.stripOk (args.contains "--release") td
            a.output_dir (resolve_targets a.target cfg.targets)
            (resolve_platform a.platform cfg.platform)).2) := by
  have hargs2 : ¬((args = [] ∨ "-h" ∈ args) ∨ "--help" ∈ args) := by simpa using hargs
  have hcfg2 : w.config (decide ("--release" ∈ args)) = Except.ok cfg := by simpa using hcfg
  rcases hod : a.output_dir with _ | od
  · simp [run, hargs2, hparse, hhelp, hmeta, hndk, hcfg2, hod, preEvs]
  · have hmk := hpre od hod
    simp [run, hargs2, hparse, hhelp, hmeta, hndk, hcfg2, hod, hmk, preEvs]

/-- Claim C1 (code bug): when kit discovery fails, run logs the could-not-find-kit
diagnostic and aborts before any build is attempted; however, contrary to the
claim, it then returns from run normally (src/cli.rs line 110), so the process
terminates with exit code 0, indistinguishable from success.  This theorem
evaluates the embedded run on the failing input: every NDK variable unset and
nothing on the filesystem.  The trace is exactly the diagnostic, with no
build invocation, and the outcome is a normal return, not a non-zero exit. -/
theorem c1_kit_not_found_aborts_without_nonzero_exit :
    run noNdkWorld ["build"] = (Outcome.returned, [Ev.kitNotFound]) := by decide

/-- Claim C2: if the build collaborator returns a non-zero exit status for some
target, the run terminates with exactly that exit code, the collaborator is
invoked only for the preceding targets and the failing one (the trace lists
the build invocations exhaustively), and artifact collection never runs (the
trace contains no mkdir, copy or strip event beyond the optional pre-build
output-directory creation). -/
theorem c2_first_build_failure_aborts (w : World) (args : List String) (a : Args)
    (td nh : String) (cfg : Config) (ts₁ : List Target) (t : Target) (ts₂ : List Target)
    (c : Int)
    (hargs : (args.isEmpty || args.contains "-h" || args.contains "--help") = false)
    (hparse : w.parse = Except.ok a) (hhelp : a.help = false)
    (hmeta : w.metadata = Except.ok td)
    (hndk : derive_ndk_path w.env w.fs w.base_dir = some nh)
    (hcfg : w.config (args.contains "--release") = Except.ok cfg)
    (hpre : ∀ od, a.output_dir = some od → w.mkdirOk od = true)
    (hsplit : resolve_targets a.target cfg.targets = ts₁ ++ t :: ts₂)
    (hok : ∀ u ∈ ts₁, w.build u = some 0)
    (hfail : w.build t = some c) (hc : c ≠ 0) :
    run w args = (Outcome.exited c,
      preEvs a.output_dir ++ Ev.apiLevel (resolve_platform a.platform cfg.platform)
        :: (ts₁.map Ev.buildInvoked ++ [Ev.buildInvoked t, Ev.hint t.triple])) := by
  rw [run_resolved w args a td nh cfg hargs hparse hhelp hmeta hndk hcfg hpre]
  have hbl := buildLoop_first_fail w.build ts₂ t c (by rw [hfail]; rfl) hc ts₁
    (fun u hu => by rw [hok u hu]; rfl)
  rw [hsplit]
  simp [runRest, hbl]

/-- Witness for C2: a concrete two-target run in which the first target builds
with code 0 and the second fails with code 101; the run exits 101 after
invoking exactly those two builds, and no collection event occurs. -/
theorem c2_first_build_failure_aborts_witness :
    run failWorld ["build"]
      = (Outcome.exited 101,
         [Ev.apiLevel 21, Ev.buildInvoked Target.armeabi_v7a,
          Ev.buildInvoked Target.arm64_v8a, Ev.hint "aarch64-linux-android"]) := by
  have h := c2_first_build_failure_aborts failWorld ["build"] argsTwoTargets
    "/project/target" "/opt/android-ndk" cfgX86 [Target.armeabi_v7a] Target.arm64_v8a []
    101 (by decide) rfl rfl rfl rfl rfl
    (fun od hod => by simp [argsTwoTargets] at hod)
    (by decide) (by decide) (by decide) (by decide)
  exact h.trans (by decide)

/-- Claim C3: the four kit-discovery strategies are consulted in strict
priority order.  ANDROID_NDK_HOME wins whenever set, for every filesystem (no
existence check); NDK_HOME wins next, also unverified; then
ANDROID_SDK_HOME/ndk-bundle, only when that path exists; otherwise the result
is exactly that of the default-directory strategy, and absence is returned
precisely when every strategy yields nothing. -/
theorem c3_kit_search_priority_order (env : Env) (fs : Fs) (base_dir : String) :
    (∀ p, env.android_ndk_home = some p → derive_ndk_path env fs base_dir = some p) ∧
    (env.android_ndk_home = none → ∀ p, env.ndk_home = some p →
      derive_ndk_path env fs base_dir = some p) ∧
    (env.android_ndk_home = none → env.ndk_home = none →
      ∀ s, env.android_sdk_home = some s →
        fs.pathExists (pjoin s "ndk-bundle") = true →
        derive_ndk_path env fs base_dir = some (pjoin s "ndk-bundle")) ∧
    (env.android_ndk_home = none → env.ndk_home = none →
      (∀ s, env.android_sdk_home = some s →
        fs.pathExists (pjoin s "ndk-bundle") = false) →
      derive_ndk_path env fs base_dir = derive_ndk_default fs base_dir) ∧
    (derive_ndk_path env fs base_dir = none ↔
      env.android_ndk_home = none ∧ env.ndk_home = none ∧
      (∀ s, env.android_sdk_home = some s →
        fs.pathExists (pjoin s "ndk-bundle") = false) ∧
      derive_ndk_default fs base_dir = none) :=
  ⟨fun p h => derive_of_primary env fs base_dir p h,
   fun h1 p h2 => derive_of_legacy env fs base_dir p h1 h2,
   fun h1 h2 s h3 h4 => derive_of_sdk env fs base_dir s h1 h2 h3 h4,
   fun h1 h2 h3 => derive_eq_default env fs base_dir h1 h2 h3,
   derive_none_iff env fs base_dir⟩

/-- Witness for C3: with all three variables set and an empty filesystem, the
primary variable wins verbatim, with no existence verification. -/
theorem c3_kit_search_priority_order_witness :
    derive_ndk_path envPrimary emptyFs "/base" = some "/opt/android-ndk" :=
  (c3_kit_search_priority_order envPrimary emptyFs "/base").1 "/opt/android-ndk" rfl

/-- Claim C4: when the first three strategies fail and the default directory
exists and is readable, the result is the head of the reversed
lexicographically sorted entry list, which is a lexicographically greatest
entry; when the directory has entries, such a maximum is returned. -/
theorem c4_default_dir_picks_lex_greatest (env : Env) (fs : Fs) (base_dir : String)
    (h1 : env.android_ndk_home = none) (h2 : env.ndk_home = none)
    (h3 : ∀ s, env.android_sdk_home = some s →
      fs.pathExists (pjoin s "ndk-bundle") = false)
    (h4 : fs.pathExists (ndkDirOf base_dir) = true)
    (entries : List String) (h5 : fs.readDir (ndkDirOf base_dir) = some entries) :
    derive_ndk_path env fs base_dir = ((sortedPaths entries).reverse).head? ∧
    (∀ m, ((sortedPaths entries).reverse).head? = some m →
      m ∈ entries ∧ ∀ x ∈ entries, strLe x m = true) ∧
    (entries ≠ [] → ∃ m, derive_ndk_path env fs base_dir = some m ∧
      m ∈ entries ∧ ∀ x ∈ entries, strLe x m = true) := by
  have hd : derive_ndk_path env fs base_dir = derive_ndk_default fs base_dir :=
    derive_eq_default env fs base_dir h1 h2 h3
  have hdd : derive_ndk_default fs base_dir = ((sortedPaths entries).reverse).head? := by
    simp [derive_ndk_default, h4, h5]
  refine ⟨hd.trans hdd, fun m hm => sortedPaths_reverse_head?_greatest hm, fun hne => ?_⟩
  obtain ⟨m, hm⟩ := sortedPaths_reverse_head?_isSome hne
  obtain ⟨hmem, hmax⟩ := sortedPaths_reverse_head?_greatest hm
  exact ⟨m, (hd.trans hdd).trans hm, hmem, hmax⟩

/-- Witness for C4: the end-to-end example of the spec: children 21.0.0,
23.1.1 and 22.0.0 of the default install directory; the entry selected is
23.1.1, the lexicographically greatest. -/
theorem c4_default_dir_picks_lex_greatest_witness :
    derive_ndk_path emptyEnv fsDefault "/home/user/.local/share"
      = some (pjoin defaultNdkDir "23.1.1") := by
  have h := (c4_default_dir_picks_lex_greatest emptyEnv fsDefault "/home/user/.local/share"
    rfl rfl (fun s hs => by simp [emptyEnv] at hs) (by decide)
    [pjoin defaultNdkDir "21.0.0", pjoin defaultNdkDir "23.1.1",
     pjoin defaultNdkDir "22.0.0"] (by decide)).1
  rw [h]; decide

/-- Claim C5: a non-empty explicit CLI target list is used exactly, for every
project config (no merge); an empty one falls back to the config defaults;
the platform level is the explicit flag value when present, else the config
default. -/
theorem c5_target_platform_resolution (cli_targets config_targets : List Target)
    (cli_platform : Option Nat) (config_platform : Nat) :
    (cli_targets ≠ [] → resolve_targets cli_targets config_targets = cli_targets) ∧
    (cli_targets = [] → resolve_targets cli_targets config_targets = config_targets) ∧
    (∀ v, cli_platform = some v →
      resolve_platform cli_platform config_platform = v) ∧
    (cli_platform = none → resolve_platform cli_platform config_platform = config_platform) := by
  refine ⟨fun h => ?_, fun h => ?_, fun v h => ?_, fun h => ?_⟩
  · simp [resolve_targets, h]
  · simp [resolve_targets, h]
  · simp [resolve_platform, h]
  · simp [resolve_platform, h]

/-- Witness for C5: one explicit target beats a different config default, and
an explicit platform 30 beats the config value 21. -/
theorem c5_target_platform_resolution_witness :
    resolve_targets [Target.x86] [Target.arm64_v8a] = [Target.x86] ∧
    resolve_platform (some 30) 21 = 30 :=
  ⟨(c5_target_platform_resolution [Target.x86] [Target.arm64_v8a] (some 30) 21).1
      (by decide),
   (c5_target_platform_resolution [Target.x86] [Target.arm64_v8a] (some 30) 21).2.2.1
      30 rfl⟩

/-- Claim C6: collection always emits the per-target destination mkdir first,
before looking at any artifact, and when the build output directory holds
zero matching artifacts the iteration succeeds having emitted exactly that
mkdir (the directory is still created). -/
theorem c6_dest_dir_created_even_when_empty (fs : Fs) (mkdirOk : String → Bool)
    (copyOk : String → String → Bool) (stripOk : String → Bool) (is_release : Bool)
    (out_dir output_dir : String) (t : Target) :
    ((collectTarget fs mkdirOk copyOk stripOk is_release out_dir output_dir t).2.head?
        = some (Ev.mkdir (pjoin output_dir t.display))) ∧
    (∀ entries : List String, mkdirOk (pjoin output_dir t.display) = true →
      fs.readDir (pjoin (pjoin out_dir t.triple)
          (if is_release then "release" else "debug")) = some entries →
      soFiles entries = [] →
      collectTarget fs mkdirOk copyOk stripOk is_release out_dir output_dir t
        = (none, [Ev.mkdir (pjoin output_dir t.display)])) := by
  constructor
  · cases hmk : mkdirOk (pjoin output_dir t.display) with
    | false => simp [collectTarget, hmk]
    | true =>
      cases hrd : fs.readDir (pjoin (pjoin out_dir t.triple)
          (if is_release then "release" else "debug")) with
      | none => simp [collectTarget, hmk, hrd]
      | some entries => simp [collectTarget, hmk, hrd]
  · intro entries hmk hrd hso
    simp [collectTarget, hmk, hrd, hso, copyFiles]

/-- Witness for C6: a debug output directory with two entries, neither of
which is a shared library; the per-target destination is still created and
the iteration finishes with exactly that event. -/
theorem c6_dest_dir_created_even_when_empty_witness :
    collectTarget fsNoArtifacts (fun _ => true) (fun _ _ => true) (fun _ => true)
        false "/project/target" "/out" Target.arm64_v8a
      = (none, [Ev.mkdir "/out/arm64-v8a"]) := by
  have h := (c6_dest_dir_created_even_when_empty fsNoArtifacts (fun _ => true)
    (fun _ _ => true) (fun _ => true) false "/project/target" "/out" Target.arm64_v8a).2
    ["/project/target/aarch64-linux-android/debug/deps",
     "/project/target/aarch64-linux-android/debug/libfoo.d"]
    rfl rfl (by decide)
  exact h.trans (by decide)

/-- Claim C7: during collection, a copy failure is fatal: the loop stops at
the failing file with a panic outcome, emitting no event past the failed copy
attempt; and the strip result is silently ignored: the whole collection loop
is invariant under every change of the strip oracle. -/
theorem c7_copy_fatal_strip_ignored (copyOk : String → String → Bool)
    (stripOk : String → Bool) (triple arch_output_dir : String) :
    (∀ (done : List String) (f : String) (rest : List String),
      (∀ g ∈ done, copyOk g (pjoin arch_output_dir (fileName g)) = true) →
      copyOk f (pjoin arch_output_dir (fileName f)) = false →
      copyFiles copyOk stripOk triple arch_output_dir (done ++ f :: rest)
        = (some Outcome.panicked,
           copiedEvs triple arch_output_dir done
             ++ [Ev.copy f (pjoin arch_output_dir (fileName f))])) ∧
    (∀ (stripOk2 : String → Bool) (fs : Fs) (mkdirOk : String → Bool)
      (is_release : Bool) (out_dir output_dir : String) (ts : List Target),
      collectLoop fs mkdirOk copyOk stripOk is_release out_dir output_dir ts
        = collectLoop fs mkdirOk copyOk stripOk2 is_release out_dir output_dir ts) :=
  ⟨fun done f rest hdone hf =>
      copyFiles_fail copyOk stripOk triple arch_output_dir f rest hf done hdone,
   fun stripOk2 fs mkdirOk is_release out_dir output_dir ts =>
      collectLoop_stripOk_eq fs mkdirOk copyOk stripOk stripOk2 is_release
        out_dir output_dir ts⟩

/-- Witness for C7: the first artifact copies (and its strip, which fails, is
ignored), the second copy fails and the loop panics right there, the third
event list ends at the failed copy. -/
theorem c7_copy_fatal_strip_ignored_witness :
    copyFiles (fun src _ => !(src == "/t/libb.so")) (fun _ => false)
        "aarch64-linux-android" "/out/arm64-v8a" ["/t/liba.so", "/t/libb.so"]
      = (some Outcome.panicked,
         [Ev.copy "/t/liba.so" "/out/arm64-v8a/liba.so",
          Ev.strip "aarch64-linux-android" "/out/arm64-v8a/liba.so",
          Ev.copy "/t/libb.so" "/out/arm64-v8a/libb.so"]) := by
  have h := (c7_copy_fatal_strip_ignored (fun src _ => !(src == "/t/libb.so"))
    (fun _ => false) "aarch64-linux-android" "/out/arm64-v8a").1
    ["/t/liba.so"] "/t/libb.so" [] (by decide) (by decide)
  exact h.trans (by decide)

/-- Claim C8: the artifact filter keeps exactly the immediate entries whose
extension is the shared-library suffix so, and the files copied by a
collection iteration are exactly the filtered ones. -/
theorem c8_so_extension_filter (entries : List String) :
    (∀ x, x ∈ soFiles entries ↔ x ∈ entries ∧ extension x = some "so") ∧
    (∀ (fs : Fs) (mkdirOk : String → Bool) (copyOk : String → String → Bool)
      (stripOk : String → Bool) (is_release : Bool) (out_dir output_dir : String)
      (t : Target),
      mkdirOk (pjoin output_dir t.display) = true →
      fs.readDir (pjoin (pjoin out_dir t.triple)
          (if is_release then "release" else "debug")) = some entries →
      (∀ f ∈ soFiles entries,
        copyOk f (pjoin (pjoin output_dir t.display) (fileName f)) = true) →
      collectTarget fs mkdirOk copyOk stripOk is_release out_dir output_dir t
        = (none, Ev.mkdir (pjoin output_dir t.display)
            :: copiedEvs t.triple (pjoin output_dir t.display) (soFiles entries))) := by
  constructor
  · intro x
    simp [soFiles, List.mem_filter]
  · intro fs mkdirOk copyOk stripOk is_release out_dir output_dir t hmk hrd hcopy
    have hcf := copyFiles_all_ok copyOk stripOk t.triple (pjoin output_dir t.display)
      (soFiles entries) hcopy
    simp [collectTarget, hmk, hrd, hcf]

/-- Witness for C8: of three entries only libx.so is selected; the iteration
copies exactly that file. -/
theorem c8_so_extension_filter_witness :
    collectTarget fsOneArtifact (fun _ => true) (fun _ _ => true) (fun _ => true)
        false "/project/target" "/out" Target.x86
      = (none, [Ev.mkdir "/out/x86",
                Ev.copy "/project/target/i686-linux-android/debug/libx.so"
                  "/out/x86/libx.so",
                Ev.strip "i686-linux-android" "/out/x86/libx.so"]) := by
  have h := (c8_so_extension_filter
    ["/project/target/i686-linux-android/debug/libx.so",
     "/project/target/i686-linux-android/debug/libx.d",
     "/project/target/i686-linux-android/debug/deps"]).2 fsOneArtifact (fun _ => true)
    (fun _ _ => true) (fun _ => true) false "/project/target" "/out" Target.x86
    rfl rfl (by decide)
  exact h.trans (by decide)

/-- Claim C9: whenever the raw argument vector is empty or contains -h or
--help anywhere, run prints usage and exits 0; the result holds for every
world, so no kit discovery, configuration loading or build can influence
it or take place before it. -/
theorem c9_help_short_circuits (w : World) (args : List String)
    (h : args = [] ∨ args.contains "-h" = true ∨ args.contains "--help" = true) :
    run w args = (Outcome.exited 0, [Ev.usage]) := by
  have hc : ((args = [] ∨ "-h" ∈ args) ∨ "--help" ∈ args) := by
    rcases h with h | h | h
    · exact Or.inl (Or.inl h)
    · exact Or.inl (Or.inr (by simpa using h))
    · exact Or.inr (by simpa using h)
  simp [run, hc]

/-- Witness for C9: a world in which every collaborator fails still prints
usage and exits 0 when --help appears among the pass-through arguments. -/
theorem c9_help_short_circuits_witness :
    run plainWorld ["build", "--help"] = (Outcome.exited 0, [Ev.usage]) :=
  c9_help_short_circuits plainWorld ["build", "--help"]
    (Or.inr (Or.inr (by decide)))

/-- Claim C10: when the build status carries no exit code, the orchestrator
substitutes -1; being non-zero, the remediation hint is printed and the run
exits -1 immediately, with no build invoked for any later target. -/
theorem c10_signal_exit_substitutes_minus_one (w : World) (args : List String)
    (a : Args) (td nh : String) (cfg : Config) (ts₁ : List Target) (t : Target)
    (ts₂ : List Target)
    (hargs : (args.isEmpty || args.contains "-h" || args.contains "--help") = false)
    (hparse : w.parse = Except.ok a) (hhelp : a.help = false)
    (hmeta : w.metadata = Except.ok td)
    (hndk : derive_ndk_path w.env w.fs w.base_dir = some nh)
    (hcfg : w.config (args.contains "--release") = Except.ok cfg)
    (hpre : ∀ od, a.output_dir = some od → w.mkdirOk od = true)
    (hsplit : resolve_targets a.target cfg.targets = ts₁ ++ t :: ts₂)
    (hok : ∀ u ∈ ts₁, w.build u = some 0)
    (hfail : w.build t = none) :
    run w args = (Outcome.exited (-1),
      preEvs a.output_dir ++ Ev.apiLevel (resolve_platform a.platform cfg.platform)
        :: (ts₁.map Ev.buildInvoked ++ [Ev.buildInvoked t, Ev.hint t.triple])) := by
  rw [run_resolved w args a td nh cfg hargs hparse hhelp hmeta hndk hcfg hpre]
  have hbl := buildLoop_first_fail w.build ts₂ t (-1) (by rw [hfail]; rfl) (by decide)
    ts₁ (fun u hu => by rw [hok u hu]; rfl)
  rw [hsplit]
  simp [runRest, hbl]

/-- Witness for C10: the second target dies without an exit code; the run
exits -1 after its build, never reaching any later target. -/
theorem c10_signal_exit_substitutes_minus_one_witness :
    run signalWorld ["build"]
      = (Outcome.exited (-1),
         [Ev.apiLevel 21, Ev.buildInvoked Target.armeabi_v7a,
          Ev.buildInvoked Target.arm64_v8a, Ev.hint "aarch64-linux-android"]) := by
  have h := c10_signal_exit_substitutes_minus_one signalWorld ["build"] argsTwoTargets
    "/project/target" "/opt/android-ndk" cfgX86 [Target.armeabi_v7a] Target.arm64_v8a []
    (by decide) rfl rfl rfl rfl rfl
    (fun od hod => by simp [argsTwoTargets] at hod)
    (by decide) (by decide) (by decide)
  exact h.trans (by decide)

end CargoNdk
